import Mathlib

/-!
Verification of the approval-workflow core of the ai-generative-pipeline
repository: the `/resume` webhook handler (`api/main.py`), the Slack
signature verifier (`tools/slack.py`), and the article store helpers
(`tools/storage.py`), embedded shallowly as executable Lean functions.
-/

namespace Pipeline

/-- Python slicing `s[:n]`: the first `n` characters (code points) of `s`. -/
def pyTake (n : Nat) (s : String) : String := ⟨s.data.take n⟩

/-- Python `str.lower()`: lowercase every character. -/
def pyLower (s : String) : String := ⟨s.data.map Char.toLower⟩

/-- Python `str.strip()`: remove leading and trailing whitespace characters. -/
def pyStrip (s : String) : String :=
  ⟨((s.data.dropWhile Char.isWhitespace).reverse.dropWhile Char.isWhitespace).reverse⟩

/-- A DynamoDB article item as read by the handler.  Every attribute may be
absent; the handler unmarshalls with defaults (`_S(got, key, "")` reads a
string attribute defaulting to `""`, `_L(got, key)` reads a string list
defaulting to `[]`).  Timestamps are modelled as natural numbers. -/
structure Item where
  status : Option String := none
  title : Option String := none
  approved_title : Option String := none
  proposed_titles : Option (List String) := none
  needs_regen : Option Bool := none
  updated_at : Option Nat := none
  deriving Repr, DecidableEq

/-- The articles table: an association list from `article_id` to the item. -/
abbrev Store := List (String × Item)

/-- Lookup `ddb.get_item(...).get("Item")`: the first entry under the key, if any. -/
def getItem (store : Store) (id : String) : Option Item :=
  (store.find? (fun p => p.1 == id)).map (·.2)

/-- One entry of an UpdateItem pass: apply the field updates `f` to the entry
holding key `id`, leave other entries alone. -/
def updEntry (id : String) (f : Item → Item) (p : String × Item) : String × Item :=
  if p.1 == id then (p.1, f p.2) else p

/-- Modelled from the spec: the DynamoDB `update_item` call issued by the
handlers (boto3 is external to the repository).  Per §4.3 of the spec,
`update(article_id, field_updates) -> success | NotFound` applies the field
updates to the record under the key and fails silently, leaving the store
unchanged, when the key does not exist. -/
def ddbUpdateItem (store : Store) (id : String) (f : Item → Item) : Store :=
  store.map (updEntry id f)

/-- Helper `tools/storage.update_article`: adds `updated_at := now` to the updates
dictionary and then issues the UpdateItem call. -/
def update_article (store : Store) (now : Nat) (id : String) (f : Item → Item) : Store :=
  ddbUpdateItem store id (fun it => { f it with updated_at := some now })

/-- The wire-level replies the `/resume` endpoint can produce:
`{"ok": true}`, `{"response_action": "clear"}`, `{"text": s}`, or an
`HTTPException` with the given status code. -/
inductive Reply where
  | okTrue
  | clear
  | text (s : String)
  | httpError (code : Nat)
  deriving Repr, DecidableEq

/-- The fields extracted from a block-action button click after JSON decoding
and the action-id suffix fallback: `data.get("action")`,
`data.get("article_id")`, `data.get("choice")`. -/
structure ActionData where
  action : Option String := none
  article_id : Option String := none
  choice : Option String := none
  deriving Repr, DecidableEq

/-- The decoded interaction payload: a button click (`block_actions`), a modal
submission (`view_submission`, carrying its callback id, the article id from
`private_metadata`, and the submitted title text when the fixed form-field
path yields one), or anything else. -/
inductive Payload where
  | blockActions (d : ActionData)
  | viewSubmission (callback_id : String) (article_id : String) (value : Option String)
  | other
  deriving Repr, DecidableEq

/-- The environment switches the handler reads: `SLACK_VERIFY` and whether the
optional `tools.storage` module imported successfully. -/
structure Env where
  slack_verify : Option String := none
  storage_available : Bool := true
  deriving Repr, DecidableEq

/-- Mapping `idx_map = {"A": 0, "B": 1, "C": 2}; idx = idx_map.get(choice, 0)`. -/
def idxOf (choice : String) : Nat :=
  if choice = "A" then 0 else if choice = "B" then 1 else if choice = "C" then 2 else 0

/-- Fallback `choice = data.get("choice") or "A"`: a missing or empty choice falls back
to `"A"`. -/
def choiceOr (c : Option String) : String :=
  match c with
  | none => "A"
  | some s => if s = "" then "A" else s

/-- The approved title the approve branch computes:
`proposed[idx][:60]` when the list entry at `idx` exists and is non-empty,
otherwise `(current_title or "Approved Title")[:60]`. -/
def approvedOf (got : Item) (choice : String) : String :=
  let proposed := got.proposed_titles.getD []
  let current_title := got.title.getD ""
  let idx := idxOf choice
  if proposed ≠ [] ∧ idx < proposed.length ∧ proposed.getD idx "" ≠ "" then
    pyTake 60 (proposed.getD idx "")
  else
    pyTake 60 (if current_title ≠ "" then current_title else "Approved Title")

/-- The UpdateExpression `SET #s = :s, approved_title = :t, #t = :t` used by
both the approve branch and the edit-submit branch: status becomes
`"approved"` and both title fields become `t`.  `updated_at` is not touched. -/
def approveUpdate (it : Item) (t : String) : Item :=
  { it with status := some "approved", approved_title := some t, title := some t }

/-- The `block_actions` branch of `/resume`: edit opens a modal (read-only on
the store), approve selects and persists a title, regen flags the article for
regeneration through `storage.update_article`, anything else is unhandled. -/
def handleBlockAction (env : Env) (store : Store) (now : Nat) (d : ActionData) :
    Store × Reply :=
  if d.action = some "edit" then
    (store, Reply.clear)
  else if d.action = some "approve" then
    let art_id := d.article_id.getD ""
    if art_id = "" then
      (store, Reply.text "Unable to identify article_id from action.")
    else
      match getItem store art_id with
      | none => (store, Reply.text "Article not found.")
      | some got =>
        let approved := approvedOf got (choiceOr d.choice)
        (ddbUpdateItem store art_id (fun it => approveUpdate it approved),
         Reply.text ("✅ Approved: " ++ approved))
  else if d.action = some "regen" then
    let art_id := d.article_id.getD ""
    ((if art_id ≠ "" ∧ env.storage_available then
        update_article store now art_id
          (fun it => { it with status := some "awaiting_approval", needs_regen := some true })
      else store),
     Reply.text "🔁 Will regenerate titles soon.")
  else
    (store, Reply.text "Unhandled action")

/-- Assignment `new_title = value.strip()[:60]` in the edit-submit branch. -/
def editTitleOf (v : String) : String := pyTake 60 (pyStrip v)

/-- The `view_submission` branch of `/resume`: for callback id `edit_submit`
it persists the stripped, truncated title (a missing form value raises inside
the `try` and is acknowledged with a modal clear and no write); any other
callback id falls through to the default acknowledgment. -/
def handleViewSubmission (store : Store) (callback_id : String) (art_id : String)
    (value : Option String) : Store × Reply :=
  if callback_id = "edit_submit" then
    match value with
    | none => (store, Reply.clear)
    | some v =>
      let new_title := editTitleOf v
      (ddbUpdateItem store art_id (fun it => approveUpdate it new_title), Reply.clear)
  else
    (store, Reply.okTrue)

/-- Dispatch on the decoded payload type, as the handler does after
verification: `block_actions`, `view_submission` with callback `edit_submit`,
or the default `{"ok": true}` acknowledgment. -/
def handlePayload (env : Env) (store : Store) (now : Nat) (p : Payload) : Store × Reply :=
  match p with
  | .blockActions d => handleBlockAction env store now d
  | .viewSubmission cb art_id value => handleViewSubmission store cb art_id value
  | .other => (store, Reply.okTrue)

/-- The failure cases of `tools/slack.verify_signature` (the carried message
strings are elided; no claim depends on their text). -/
inductive VerifyError where
  | noSecret
  | missingHeaders
  | badTimestamp
  | stale
  | mismatch
  deriving Repr, DecidableEq

/-- Decimal digits of a character list, or `none` when the list is empty or
holds a non-digit. -/
def digitsOf (l : List Char) : Option Nat :=
  if l = [] then none
  else if l.all Char.isDigit then
    some (l.foldl (fun n c => n * 10 + (c.toNat - 48)) 0)
  else none

/-- Python `int(ts)` on a canonical integer literal: an optional sign followed
by decimal digits (the whitespace- and underscore-tolerant forms `int` also
accepts are elided). -/
def pyInt (s : String) : Option Int :=
  match s.data with
  | [] => none
  | c :: rest =>
    if c = '-' then (digitsOf rest).map (fun n => -(n : Int))
    else if c = '+' then (digitsOf rest).map (fun n => (n : Int))
    else (digitsOf (c :: rest)).map (fun n => (n : Int))

/-- Base `b"v0:%d:" % ts_int + raw`: the signed base string, built from the parsed
integer timestamp. -/
def sigBase (n : Int) (body : String) : String :=
  "v0:" ++ toString n ++ ":" ++ body

/-- Expected `"v0=" + hmac.new(secret, base, sha256).hexdigest()`.  The keyed hash is a
parameter `mac` (secret → message → hex digest): HMAC-SHA256 comes from the
Python standard library, outside this repository. -/
def expectedSig (mac : String → String → String) (secret : String) (n : Int)
    (body : String) : String :=
  "v0=" ++ mac secret (sigBase n body)

/-- Verifier `tools/slack.verify_signature`: reject when the signing secret is
unconfigured, when either header is missing or empty, when the timestamp does
not parse as an integer, when `|now - ts| > 300`, or when the supplied
signature differs from the expected one; otherwise succeed. -/
def verify_signature (mac : String → String → String) (secret : String) (now : Int)
    (ts : Option String) (sig : Option String) (body : String) :
    Except VerifyError Unit :=
  if secret = "" then .error .noSecret
  else if ts.getD "" = "" ∨ sig.getD "" = "" then .error .missingHeaders
  else
    match pyInt (ts.getD "") with
    | none => .error .badTimestamp
    | some n =>
      if (now - n).natAbs > 300 then .error .stale
      else if sig.getD "" ≠ expectedSig mac secret n body then .error .mismatch
      else .ok ()

/-- The `/resume` endpoint: an empty body is acknowledged immediately; then,
unless `SLACK_VERIFY` is set to something other than `"on"`
(case-insensitively), the Slack signature is verified and a failure becomes an
HTTP 401; finally the decoded payload is dispatched. -/
def resume (env : Env) (mac : String → String → String) (secret : String)
    (nowTime : Int) (ts : Option String) (sig : Option String) (raw : String)
    (p : Payload) (store : Store) (now : Nat) : Store × Reply :=
  if raw = "" then (store, Reply.okTrue)
  else if pyLower (env.slack_verify.getD "on") = "on" then
    match verify_signature mac secret nowTime ts sig raw with
    | .error _ => (store, Reply.httpError 401)
    | .ok _ => handlePayload env store now p
  else handlePayload env store now p

/-- Mapping `index(choice)` exactly as the spec states it: A to 0, B to 1, C to 2,
and 0 for every unrecognized choice. -/
def specIndex (choice : String) : Nat :=
  if choice = "A" then 0 else if choice = "B" then 1 else if choice = "C" then 2 else 0

/-- The title selection as the spec phrases it: the proposed title at
`index(choice)`, or the current title when that entry is absent or empty. -/
def specSelect (proposed : List String) (current : String) (choice : String) : String :=
  if specIndex choice < proposed.length ∧ proposed.getD (specIndex choice) "" ≠ "" then
    proposed.getD (specIndex choice) ""
  else current

/-- The approved title as the amended claim states it: the selected title,
with the literal `"Approved Title"` substituted when the selection is empty,
truncated to 60 characters. -/
def specApprovedTitle (proposed : List String) (current : String) (choice : String) :
    String :=
  pyTake 60 (if specSelect proposed current choice = "" then "Approved Title"
             else specSelect proposed current choice)

/-- A sample keyed hash used only to instantiate the MAC-parametric theorems
at a concrete input. -/
def macW : String → String → String := fun s m => s ++ m

/-- A sample article item awaiting approval with three proposed titles. -/
def itemA : Item :=
  { status := some "awaiting_approval", title := some "Old",
    proposed_titles := some ["T1", "T2", "T3"] }

/-- A sample article item with a title and a recorded `updated_at` stamp. -/
def itemW : Item := { title := some "Old Title", updated_at := some 5 }

end Pipeline

namespace Pipeline

theorem pyTake_length (n : Nat) (s : String) : (pyTake n s).length ≤ n := by
  have h : (pyTake n s).length = (s.data.take n).length := rfl
  rw [h, List.length_take]
  exact inf_le_left

theorem pyTake_ne_empty (n : Nat) (hn : 0 < n) (s : String) (hs : s ≠ "") :
    pyTake n s ≠ "" := by
  intro h
  apply hs
  have hd : s.data.take n = [] := congrArg String.data h
  rcases List.take_eq_nil_iff.mp hd with h0 | hnil
  · omega
  · exact congrArg String.mk hnil

theorem getItem_cons (p : String × Item) (rest : Store) (id : String) :
    getItem (p :: rest) id = if p.1 == id then some p.2 else getItem rest id := by
  unfold getItem
  rw [List.find?_cons]
  cases hp : p.1 == id <;> simp [hp]

theorem ddbUpdateItem_cons (p : String × Item) (rest : Store) (id : String)
    (f : Item → Item) :
    ddbUpdateItem (p :: rest) id f = updEntry id f p :: ddbUpdateItem rest id f := rfl

theorem getItem_ddbUpdateItem (store : Store) (id : String) (f : Item → Item) :
    getItem (ddbUpdateItem store id f) id = (getItem store id).map f := by
  induction store with
  | nil => rfl
  | cons p rest ih =>
    rw [ddbUpdateItem_cons, getItem_cons, getItem_cons]
    unfold updEntry
    cases hp : p.1 == id with
    | true => simp [hp]
    | false => simp [hp, ih]

theorem ddbUpdateItem_of_getItem_none (store : Store) (id : String) (f : Item → Item)
    (h : getItem store id = none) : ddbUpdateItem store id f = store := by
  induction store with
  | nil => rfl
  | cons p rest ih =>
    rw [getItem_cons] at h
    rw [ddbUpdateItem_cons]
    unfold updEntry
    cases hp : p.1 == id with
    | true => rw [hp] at h; simp at h
    | false =>
      rw [hp] at h
      simp only [hp, Bool.false_eq_true, if_false]
      rw [ih h]

theorem ddbUpdateItem_idem (store : Store) (id : String) (f : Item → Item)
    (hf : ∀ it, f (f it) = f it) :
    ddbUpdateItem (ddbUpdateItem store id f) id f = ddbUpdateItem store id f := by
  induction store with
  | nil => rfl
  | cons p rest ih =>
    rw [ddbUpdateItem_cons, ddbUpdateItem_cons]
    refine congrArg₂ (· :: ·) ?_ ih
    unfold updEntry
    cases hp : p.1 == id with
    | true => simp [hp, hf]
    | false => simp [hp]

theorem approvedOf_eq_spec (got : Item) (c : String) :
    approvedOf got c
      = specApprovedTitle (got.proposed_titles.getD []) (got.title.getD "") c := by
  unfold approvedOf specApprovedTitle specSelect
  have hidx : idxOf c = specIndex c := rfl
  rw [hidx]
  by_cases hcond : specIndex c < (got.proposed_titles.getD []).length ∧
      (got.proposed_titles.getD []).getD (specIndex c) "" ≠ ""
  · have hP : got.proposed_titles.getD [] ≠ [] := by
      intro hnil
      rw [hnil] at hcond
      simp at hcond
    rw [if_pos ⟨hP, hcond⟩, if_pos hcond, if_neg hcond.2]
  · have hno : ¬ (got.proposed_titles.getD [] ≠ [] ∧
        specIndex c < (got.proposed_titles.getD []).length ∧
        (got.proposed_titles.getD []).getD (specIndex c) "" ≠ "") := by
      intro h
      exact hcond h.2
    rw [if_neg hno, if_neg hcond]
    by_cases hT : got.title.getD "" = ""
    · rw [if_neg (not_not_intro hT), if_pos hT]
    · rw [if_pos hT, if_neg hT]

theorem handleBlockAction_approve (env : Env) (store : Store) (now : Nat)
    (id c : String) (got : Item)
    (hid : id ≠ "") (hc : c ≠ "") (hget : getItem store id = some got) :
    handleBlockAction env store now
        { action := some "approve", article_id := some id, choice := some c }
      = (ddbUpdateItem store id (fun it => approveUpdate it (approvedOf got c)),
         Reply.text ("✅ Approved: " ++ approvedOf got c)) := by
  unfold handleBlockAction
  simp only [Option.getD_some]
  rw [if_neg (show ¬(some "approve" = some "edit") by simp)]
  rw [if_pos trivial]
  rw [if_neg hid, hget]
  simp [choiceOr, hc]

end Pipeline

namespace Pipeline

theorem handlePayload_reply_ne_httpError (env : Env) (store : Store) (now : Nat)
    (p : Payload) (code : Nat) :
    (handlePayload env store now p).2 ≠ Reply.httpError code := by
  cases p with
  | other => simp [handlePayload]
  | viewSubmission cb aid v =>
    simp only [handlePayload, handleViewSubmission]
    by_cases hcb : cb = "edit_submit"
    · rw [if_pos hcb]
      cases v <;> simp
    · rw [if_neg hcb]
      simp
  | blockActions d =>
    simp only [handlePayload, handleBlockAction]
    by_cases h1 : d.action = some "edit"
    · simp [h1]
    · rw [if_neg h1]
      by_cases h2 : d.action = some "approve"
      · rw [if_pos h2]
        by_cases h3 : d.article_id.getD "" = ""
        · simp [h3]
        · rw [if_neg h3]
          cases hg : getItem store (d.article_id.getD "") <;> simp [hg]
      · rw [if_neg h2]
        by_cases h4 : d.action = some "regen"
        · simp [h4]
        · simp [h4]

theorem expectedSig_ne_empty (mac : String → String → String) (secret : String)
    (n : Int) (body : String) : expectedSig mac secret n body ≠ "" := by
  unfold expectedSig
  intro h
  have hlen := congrArg String.length h
  rw [String.length_append] at hlen
  have h3 : ("v0=" : String).length = 3 := rfl
  rw [h3] at hlen
  have h0 : ("" : String).length = 0 := rfl
  rw [h0] at hlen
  omega

end Pipeline

namespace Pipeline

theorem C2_verify_signature_ok_iff (mac : String → String → String) (secret : String)
    (now : Int) (ts sig : Option String) (body : String) :
    verify_signature mac secret now ts sig body = Except.ok () ↔
      secret ≠ "" ∧ ∃ n : Int, pyInt (ts.getD "") = some n ∧ (now - n).natAbs ≤ 300 ∧
        sig = some (expectedSig mac secret n body) := by
  unfold verify_signature
  by_cases h1 : secret = ""
  · rw [if_pos h1]
    simp [h1]
  · rw [if_neg h1]
    by_cases h2 : ts.getD "" = "" ∨ sig.getD "" = ""
    · rw [if_pos h2]
      constructor
      · intro h
        exact absurd h (by simp)
      · rintro ⟨-, n, hn, -, hsig⟩
        rcases h2 with h2 | h2
        · rw [h2] at hn
          exact Option.noConfusion ((show pyInt "" = none from rfl) ▸ hn)
        · rw [hsig] at h2
          simp only [Option.getD_some] at h2
          exact (expectedSig_ne_empty mac secret n body h2).elim
    · rw [if_neg h2]
      push_neg at h2
      obtain ⟨hts, hsg⟩ := h2
      cases hn : pyInt (ts.getD "") with
      | none => simp [hn]
      | some n =>
        simp only [hn]
        by_cases h3 : (now - n).natAbs > 300
        · rw [if_pos h3]
          constructor
          · intro h
            exact absurd h (by simp)
          · rintro ⟨-, m, hm, hle, -⟩
            injection hm with hm
            subst hm
            omega
        · rw [if_neg h3]
          by_cases h4 : sig.getD "" ≠ expectedSig mac secret n body
          · rw [if_pos h4]
            constructor
            · intro h
              exact absurd h (by simp)
            · rintro ⟨-, m, hm, -, hsig⟩
              injection hm with hm
              subst hm
              rw [hsig] at h4
              simp only [Option.getD_some] at h4
              exact (h4 rfl).elim
          · rw [if_neg h4]
            push_neg at h4
            constructor
            · intro _
              refine ⟨h1, n, rfl, Nat.le_of_not_lt h3, ?_⟩
              cases sig with
              | none => exact absurd h4.symm (expectedSig_ne_empty mac secret n body)
              | some s =>
                simp only [Option.getD_some] at h4
                rw [h4]
            · intro _
              rfl

end Pipeline

namespace Pipeline

/-- C1 (amended): applying an ApproveCommand to an existing article stores
status `"approved"` and sets both `title` and `approved_title` to the proposed
title at `index(choice)` — "A" to 0, "B" to 1, "C" to 2, and every
unrecognized choice to 0 — or the current title when that entry is absent or
empty, or the literal `"Approved Title"` when the current title is empty too,
truncated to 60 characters; the reply quotes the approved title. -/
theorem C1_approve_selection_amended (env : Env) (store : Store) (now : Nat)
    (id c : String) (got : Item)
    (hid : id ≠ "") (hc : c ≠ "") (hget : getItem store id = some got) :
    getItem ((handleBlockAction env store now
        { action := some "approve", article_id := some id, choice := some c }).1) id
      = some (approveUpdate got (specApprovedTitle (got.proposed_titles.getD [])
          (got.title.getD "") c))
    ∧ (handleBlockAction env store now
        { action := some "approve", article_id := some id, choice := some c }).2
      = Reply.text ("✅ Approved: " ++ specApprovedTitle (got.proposed_titles.getD [])
          (got.title.getD "") c) := by
  have h := handleBlockAction_approve env store now id c got hid hc hget
  rw [approvedOf_eq_spec got c] at h
  constructor
  · have h1 := congrArg Prod.fst h
    simp only at h1
    rw [h1, getItem_ddbUpdateItem, hget]
    rfl
  · exact congrArg Prod.snd h

/-- C1 is false as stated: on an article whose proposed titles are absent and
whose current title is the empty string, the approve branch stores the literal
`"Approved Title"`, not the (empty) current title truncated to 60. -/
theorem C1_counterexample :
    (getItem ((handleBlockAction ({} : Env) [("c1", ({ title := some "" } : Item))] 0
        { action := some "approve", article_id := some "c1", choice := some "A" }).1)
        "c1").map Item.approved_title = some (some "Approved Title")
    ∧ "Approved Title" ≠ pyTake 60 "" := by decide

/-- C1 witness: choice "B" on an article with proposed titles
["T1", "T2", "T3"] yields the reply quoting the selected title, and the
selected title is "T2". -/
theorem C1_approve_selection_witness :
    (handleBlockAction ({} : Env) [("a1", itemA)] 0
        { action := some "approve", article_id := some "a1", choice := some "B" }).2
      = Reply.text ("✅ Approved: " ++ specApprovedTitle (itemA.proposed_titles.getD [])
          (itemA.title.getD "") "B")
    ∧ specApprovedTitle (itemA.proposed_titles.getD []) (itemA.title.getD "") "B" = "T2" :=
  ⟨(C1_approve_selection_amended {} [("a1", itemA)] 0 "a1" "B" itemA (by decide) (by decide)
      (by decide)).2, by decide⟩

/-- C2 witness: with the signing secret configured, a timestamp 299 seconds in
the past and the correct signature, verification succeeds. -/
theorem C2_verify_signature_witness :
    verify_signature macW "secret" 1000 (some "701")
      (some (expectedSig macW "secret" 701 "body")) "body" = Except.ok () :=
  (C2_verify_signature_ok_iff macW "secret" 1000 (some "701")
      (some (expectedSig macW "secret" 701 "body")) "body").mpr
    ⟨by decide, 701, by decide, by decide, rfl⟩

/-- C3 (amended): before storing an edited title the handler only strips
surrounding whitespace and truncates to 60 characters — the stored value is
exactly `pyTake 60 (pyStrip v)`, so wrapping quotes, code fences and internal
whitespace are preserved; the approve branch truncates without any
normalization at all (see C1). -/
theorem C3_clamp_amended (store : Store) (id : String) (got : Item) (v : String)
    (hget : getItem store id = some got) :
    handleViewSubmission store "edit_submit" id (some v)
      = (ddbUpdateItem store id (fun it => approveUpdate it (pyTake 60 (pyStrip v))),
         Reply.clear)
    ∧ getItem ((handleViewSubmission store "edit_submit" id (some v)).1) id
      = some (approveUpdate got (pyTake 60 (pyStrip v))) := by
  have h : handleViewSubmission store "edit_submit" id (some v)
      = (ddbUpdateItem store id (fun it => approveUpdate it (editTitleOf v)), Reply.clear) :=
    rfl
  constructor
  · exact h
  · have h1 := congrArg Prod.fst h
    simp only at h1
    rw [h1, getItem_ddbUpdateItem, hget]
    rfl

/-- C3 is false as stated: the clamp performed on an edit-submitted title does
not strip wrapping quote characters — a title wrapped in straight double
quotes is stored with the quotes retained. -/
theorem C3_counterexample :
    (getItem ((handleViewSubmission [("a3", ({} : Item))] "edit_submit" "a3"
        (some "  \"Quoted Title Example\"  ")).1) "a3").map Item.approved_title
      = some (some "\"Quoted Title Example\"")
    ∧ "\"Quoted Title Example\"" ≠ "Quoted Title Example" := by decide

/-- C3 witness: submitting a quote-wrapped, whitespace-padded title stores the
stripped-and-truncated value, which keeps its quotes. -/
theorem C3_clamp_witness :
    handleViewSubmission [("a3w", ({} : Item))] "edit_submit" "a3w"
        (some "  \"Quoted Title Example\"  ")
      = (ddbUpdateItem [("a3w", ({} : Item))] "a3w"
          (fun it => approveUpdate it (pyTake 60 (pyStrip "  \"Quoted Title Example\"  "))),
         Reply.clear)
    ∧ pyTake 60 (pyStrip "  \"Quoted Title Example\"  ") = "\"Quoted Title Example\"" :=
  ⟨(C3_clamp_amended [("a3w", ({} : Item))] "a3w" {} "  \"Quoted Title Example\"  "
      (by decide)).1, by decide⟩

end Pipeline

namespace Pipeline

/-- C4 (amended): on a missing article, approve leaves the store unchanged and
replies "Article not found."; regen and edit-submit also leave the store
unchanged (the modelled update is silent on a missing key) but reply with
their normal acknowledgments — the regeneration notice and the modal clear —
rather than an error reply. -/
theorem C4_missing_article_amended (env : Env) (store : Store) (now : Nat)
    (id : String) (c : Option String) (v : String)
    (hid : id ≠ "") (hget : getItem store id = none) :
    handleBlockAction env store now
        { action := some "approve", article_id := some id, choice := c }
      = (store, Reply.text "Article not found.")
    ∧ handleBlockAction env store now
        { action := some "regen", article_id := some id, choice := c }
      = (store, Reply.text "🔁 Will regenerate titles soon.")
    ∧ handleViewSubmission store "edit_submit" id (some v) = (store, Reply.clear) := by
  refine ⟨?_, ?_, ?_⟩
  · unfold handleBlockAction
    simp only [Option.getD_some]
    rw [if_neg (show ¬(some "approve" = some "edit") by simp), if_pos trivial,
      if_neg hid, hget]
  · unfold handleBlockAction
    simp only [Option.getD_some]
    rw [if_neg (show ¬(some "regen" = some "edit") by simp),
      if_neg (show ¬(some "regen" = some "approve") by simp), if_pos trivial]
    by_cases hs : id ≠ "" ∧ env.storage_available = true
    · rw [if_pos hs]
      unfold update_article
      rw [ddbUpdateItem_of_getItem_none store id _ hget]
    · rw [if_neg hs]
  · have h : handleViewSubmission store "edit_submit" id (some v)
        = (ddbUpdateItem store id (fun it => approveUpdate it (editTitleOf v)), Reply.clear) :=
      rfl
    rw [h, ddbUpdateItem_of_getItem_none store id _ hget]

/-- C4 is false as stated: a RegenCommand on a missing article is answered
with the normal regeneration acknowledgment, not a user-visible error
reply such as "Article not found.". -/
theorem C4_counterexample :
    handleBlockAction ({} : Env) [] 0
        { action := some "regen", article_id := some "a4", choice := none }
      = ([], Reply.text "🔁 Will regenerate titles soon.")
    ∧ Reply.text "🔁 Will regenerate titles soon." ≠ Reply.text "Article not found." := by
  decide

/-- C4 witness: on the empty store, approve replies "Article not found." and
leaves the store unchanged. -/
theorem C4_missing_article_witness :
    handleBlockAction ({} : Env) [] 0
        { action := some "approve", article_id := some "a4w", choice := none }
      = ([], Reply.text "Article not found.") :=
  (C4_missing_article_amended {} [] 0 "a4w" none "t" (by decide) rfl).1

/-- C5 (amended): a title stored by the approve branch is at most 60
characters and never empty; a title stored by the edit-submit branch is at
most 60 characters but may be empty (no emptiness fallback exists on that
path). -/
theorem C5_approved_title_amended (env : Env) (store : Store) (now : Nat)
    (id c v : String) (got : Item)
    (hid : id ≠ "") (hc : c ≠ "") (hget : getItem store id = some got) :
    ((approvedOf got c).length ≤ 60 ∧ approvedOf got c ≠ ""
      ∧ getItem ((handleBlockAction env store now
          { action := some "approve", article_id := some id, choice := some c }).1) id
        = some (approveUpdate got (approvedOf got c)))
    ∧ ((editTitleOf v).length ≤ 60
      ∧ getItem ((handleViewSubmission store "edit_submit" id (some v)).1) id
        = some (approveUpdate got (editTitleOf v))) := by
  refine ⟨⟨?_, ?_, ?_⟩, ?_, ?_⟩
  · simp only [approvedOf]
    split_ifs <;> exact pyTake_length 60 _
  · simp only [approvedOf]
    split_ifs with h hT
    · exact pyTake_ne_empty 60 (by omega) _ h.2.2
    · exact pyTake_ne_empty 60 (by omega) _ hT
    · exact pyTake_ne_empty 60 (by omega) _ (by decide)
  · have h := handleBlockAction_approve env store now id c got hid hc hget
    have h1 := congrArg Prod.fst h
    simp only at h1
    rw [h1, getItem_ddbUpdateItem, hget]
    rfl
  · exact pyTake_length 60 _
  · have h1 : (handleViewSubmission store "edit_submit" id (some v)).1
        = ddbUpdateItem store id (fun it => approveUpdate it (editTitleOf v)) := rfl
    rw [h1, getItem_ddbUpdateItem, hget]
    rfl

/-- C5 is false as stated: submitting a whitespace-only edited title stores
the empty string as approved_title. -/
theorem C5_counterexample :
    (getItem ((handleViewSubmission [("a5", ({} : Item))] "edit_submit" "a5"
        (some "   ")).1) "a5").map Item.approved_title = some (some "") := by decide

/-- C5 witness: on a sample article the approve branch computes a title that
is at most 60 characters and non-empty. -/
theorem C5_approved_title_witness :
    (approvedOf itemW "A").length ≤ 60 ∧ approvedOf itemW "A" ≠ "" := by
  have h := C5_approved_title_amended {} [("a5w", itemW)] 0 "a5w" "A" "New" itemW
    (by decide) (by decide) (by decide)
  exact ⟨h.1.1, h.1.2.1⟩

/-- C6 (amended): when the title selected per the spec (the proposed title at
index(choice), else the current title) clamps to the empty string, the approve
branch substitutes the literal "Approved Title" (capital T) as the approved
title. -/
theorem C6_placeholder_amended (env : Env) (store : Store) (now : Nat) (id c : String)
    (got : Item) (hid : id ≠ "") (hc : c ≠ "") (hget : getItem store id = some got)
    (hsel : pyTake 60 (specSelect (got.proposed_titles.getD []) (got.title.getD "") c)
      = "") :
    (getItem ((handleBlockAction env store now
        { action := some "approve", article_id := some id, choice := some c }).1) id).map
        Item.approved_title = some (some "Approved Title") := by
  have hsel0 : specSelect (got.proposed_titles.getD []) (got.title.getD "") c = "" := by
    by_contra hne
    exact pyTake_ne_empty 60 (by omega) _ hne hsel
  have happ : approvedOf got c = "Approved Title" := by
    rw [approvedOf_eq_spec]
    unfold specApprovedTitle
    rw [hsel0]
    rfl
  have h := handleBlockAction_approve env store now id c got hid hc hget
  have h1 := congrArg Prod.fst h
  simp only at h1
  rw [h1, getItem_ddbUpdateItem, hget, happ]
  rfl

/-- C6 is false as stated: the substituted literal is "Approved Title", not
"Approved title" — shown on an article with no proposed titles and an empty
current title. -/
theorem C6_counterexample :
    (getItem ((handleBlockAction ({} : Env) [("a6", ({ title := some "" } : Item))] 0
        { action := some "approve", article_id := some "a6", choice := some "Z" }).1)
        "a6").map Item.approved_title = some (some "Approved Title")
    ∧ "Approved Title" ≠ "Approved title" := by decide

/-- C6 witness: choice "Z" on an article with no proposed titles and empty
current title selects the empty string, so the stored approved title is the
literal "Approved Title". -/
theorem C6_placeholder_witness :
    (getItem ((handleBlockAction ({} : Env) [("a6w", ({ title := some "" } : Item))] 0
        { action := some "approve", article_id := some "a6w", choice := some "Z" }).1)
        "a6w").map Item.approved_title = some (some "Approved Title") :=
  C6_placeholder_amended {} [("a6w", { title := some "" })] 0 "a6w" "Z"
    { title := some "" } (by decide) (by decide) (by decide) (by decide)

/-- C7 (amended): `storage.update_article` (used by the regen branch and every
partial update through the store helper) stamps updated_at with the current
time, but the approve and edit-submit branches write status and the two title
fields directly and leave updated_at untouched. -/
theorem C7_updated_at_amended (env : Env) (store : Store) (now : Nat) (id c v : String)
    (f : Item → Item) (it got : Item) :
    (getItem store id = some it →
        getItem (update_article store now id f) id
          = some { f it with updated_at := some now })
    ∧ (getItem store id = some got → id ≠ "" → c ≠ "" →
        (getItem ((handleBlockAction env store now
            { action := some "approve", article_id := some id, choice := some c }).1)
            id).map Item.updated_at = some got.updated_at)
    ∧ (getItem store id = some got →
        (getItem ((handleViewSubmission store "edit_submit" id (some v)).1) id).map
            Item.updated_at = some got.updated_at) := by
  refine ⟨?_, ?_, ?_⟩
  · intro hget
    unfold update_article
    rw [getItem_ddbUpdateItem, hget]
    rfl
  · intro hget hid hc
    have h := handleBlockAction_approve env store now id c got hid hc hget
    have h1 := congrArg Prod.fst h
    simp only at h1
    rw [h1, getItem_ddbUpdateItem, hget]
    rfl
  · intro hget
    have h1 : (handleViewSubmission store "edit_submit" id (some v)).1
        = ddbUpdateItem store id (fun x => approveUpdate x (editTitleOf v)) := rfl
    rw [h1, getItem_ddbUpdateItem, hget]
    rfl

/-- C7 is false as stated: approving an existing article whose stored
updated_at stamp is 5 at current time 100 leaves updated_at at 5 — the
approve branch does not refresh it. -/
theorem C7_counterexample :
    (getItem ((handleBlockAction ({} : Env)
        [("a7", ({ title := some "T", updated_at := some 5 } : Item))] 100
        { action := some "approve", article_id := some "a7", choice := some "A" }).1)
        "a7").map Item.updated_at = some (some 5)
    ∧ (5 : Nat) ≠ 100 := by decide

/-- C7 witness: the approve branch leaves the updated_at stamp of the sample
article (5) unchanged. -/
theorem C7_updated_at_witness :
    (getItem ((handleBlockAction ({} : Env) [("a7w", itemW)] 100
        { action := some "approve", article_id := some "a7w", choice := some "A" }).1)
        "a7w").map Item.updated_at = some (some 5) := by
  have h := C7_updated_at_amended {} [("a7w", itemW)] 100 "a7w" "A" "x"
    (fun x => x) itemW itemW
  exact h.2.1 (by decide) (by decide) (by decide)

end Pipeline

namespace Pipeline

/-- C8: a request with an empty body is acknowledged with the ok-true reply
and nothing else happens — the result is the same for every verification
configuration, MAC, secret, header pair and payload, and the store is
returned untouched, so neither signature verification nor parsing nor any
store access can influence it. -/
theorem C8_empty_body (env : Env) (mac : String → String → String) (secret : String)
    (nowTime : Int) (ts sig : Option String) (p : Payload) (store : Store) (now : Nat) :
    resume env mac secret nowTime ts sig "" p store now = (store, Reply.okTrue) := rfl

/-- C9: submitting the same edit (same callback id, article id and title
value) twice produces exactly the same stored state and reply as submitting it
once — the edit-submit write is idempotent (it does not even touch
updated_at). -/
theorem C9_edit_submit_idempotent (env : Env) (store : Store) (now : Nat)
    (cb id : String) (value : Option String) :
    handlePayload env ((handlePayload env store now
        (Payload.viewSubmission cb id value)).1) now (Payload.viewSubmission cb id value)
      = handlePayload env store now (Payload.viewSubmission cb id value) := by
  simp only [handlePayload]
  by_cases hcb : cb = "edit_submit"
  · subst hcb
    cases value with
    | none => rfl
    | some v =>
      have h : handleViewSubmission store "edit_submit" id (some v)
          = (ddbUpdateItem store id (fun it => approveUpdate it (editTitleOf v)),
             Reply.clear) := rfl
      rw [h]
      have h2 : handleViewSubmission
          (ddbUpdateItem store id (fun it => approveUpdate it (editTitleOf v)), Reply.clear).1
          "edit_submit" id (some v)
          = (ddbUpdateItem (ddbUpdateItem store id (fun it => approveUpdate it (editTitleOf v)))
              id (fun it => approveUpdate it (editTitleOf v)), Reply.clear) := rfl
      rw [h2, ddbUpdateItem_idem store id (fun it => approveUpdate it (editTitleOf v))
        (fun x => rfl)]
  · have h : ∀ s : Store, handleViewSubmission s cb id value = (s, Reply.okTrue) := by
      intro s
      unfold handleViewSubmission
      rw [if_neg hcb]
    simp [h]

/-- C10: when SLACK_VERIFY is set to any value that does not lowercase to
"on", a non-empty request skips signature verification entirely: the endpoint
behaves exactly as the payload dispatch and its reply is never an HTTP error
(in particular never a 401), whatever the headers and secret are. -/
theorem C10_verify_skip (env : Env) (mac : String → String → String) (secret : String)
    (nowTime : Int) (ts sig : Option String) (raw : String) (p : Payload)
    (store : Store) (now : Nat) (v : String) (code : Nat)
    (hv : env.slack_verify = some v) (hlow : pyLower v ≠ "on") (hraw : raw ≠ "") :
    resume env mac secret nowTime ts sig raw p store now = handlePayload env store now p
    ∧ (resume env mac secret nowTime ts sig raw p store now).2 ≠ Reply.httpError code := by
  have h1 : resume env mac secret nowTime ts sig raw p store now
      = handlePayload env store now p := by
    unfold resume
    rw [if_neg hraw, hv]
    rw [if_neg (show ¬(pyLower ((some v).getD "on") = "on") by simpa using hlow)]
  refine ⟨h1, ?_⟩
  rw [h1]
  exact handlePayload_reply_ne_httpError env store now p code

/-- C10 witness: with SLACK_VERIFY set to "off", a non-empty request is
dispatched without verification and is not answered with a 401. -/
theorem C10_verify_skip_witness :
    resume { slack_verify := some "off" } macW "" 0 none none "x" Payload.other [] 0
      = handlePayload { slack_verify := some "off" } [] 0 Payload.other
    ∧ (resume { slack_verify := some "off" } macW "" 0 none none "x"
        Payload.other [] 0).2 ≠ Reply.httpError 401 :=
  C10_verify_skip { slack_verify := some "off" } macW "" 0 none none "x" Payload.other
    [] 0 "off" 401 rfl (by decide) (by decide)

end Pipeline
